import Mathlib

/-!
Verification of the AssetFlow asset-inventory backend (`activos` app).

The development shallowly embeds the validation, normalization, state-transition
and reporting logic of `src/activos/models.py`, `src/activos/serializers.py`
and `src/activos/views.py`.  Python strings are modelled as `List Char` with
ASCII case semantics, decimal currency amounts as `Int` amounts (every amount a claim mentions is integral), calendar dates as
`Int` day numbers (so that `date.today() - fecha` is integer subtraction of
day numbers), and the relational store as explicit lists of records.
-/

namespace AssetFlow

/-- Decidable equality of `Except` results, used to evaluate the embedded
operations on concrete inputs. -/
instance {ε α : Type} [DecidableEq ε] [DecidableEq α] : DecidableEq (Except ε α) := fun x y =>
  match x, y with
  | .error a, .error b =>
      if h : a = b then .isTrue (by rw [h]) else .isFalse (fun hc => by cases hc; exact h rfl)
  | .error _, .ok _ => .isFalse (fun hc => by cases hc)
  | .ok _, .error _ => .isFalse (fun hc => by cases hc)
  | .ok a, .ok b =>
      if h : a = b then .isTrue (by rw [h]) else .isFalse (fun hc => by cases hc; exact h rfl)

/-! ## Python string primitives (ASCII semantics, over `List Char`) -/

/-- Whitespace test used by Python's `str.strip` (space, tab, LF, CR, VT, FF). -/
def pyIsSpace (c : Char) : Bool :=
  decide (c.toNat = 32 ∨ c.toNat = 9 ∨ c.toNat = 10 ∨ c.toNat = 13 ∨
    c.toNat = 11 ∨ c.toNat = 12)

/-- ASCII upper-casing of one character, as done by Python's `str.upper` on ASCII. -/
def pyCharUpper (c : Char) : Char :=
  if 97 ≤ c.toNat ∧ c.toNat ≤ 122 then Char.ofNat (c.toNat - 32) else c

/-- ASCII lower-casing of one character. -/
def pyCharLower (c : Char) : Char :=
  if 65 ≤ c.toNat ∧ c.toNat ≤ 90 then Char.ofNat (c.toNat + 32) else c

/-- Python's `str.upper` (ASCII fragment). -/
def pyUpper (s : List Char) : List Char := s.map pyCharUpper

/-- Python's `str.strip`: remove leading and trailing whitespace. -/
def pyStrip (s : List Char) : List Char :=
  (s.dropWhile pyIsSpace).rdropWhile pyIsSpace

/-- ASCII letter test (used for `str.title` and `str.isalnum`). -/
def pyIsAlphaChar (c : Char) : Bool :=
  decide ((65 ≤ c.toNat ∧ c.toNat ≤ 90) ∨ (97 ≤ c.toNat ∧ c.toNat ≤ 122))

/-- ASCII alphanumeric character test. -/
def pyIsAlnumChar (c : Char) : Bool :=
  pyIsAlphaChar c || decide (48 ≤ c.toNat ∧ c.toNat ≤ 57)

/-- Python's `str.isalnum`: non-empty and every character alphanumeric. -/
def pyIsAlnum (s : List Char) : Bool :=
  !s.isEmpty && s.all pyIsAlnumChar

/-- Helper for `pyTitle`: the flag records whether the previous character was a letter. -/
def pyTitleAux : Bool → List Char → List Char
  | _, [] => []
  | prev, c :: cs =>
      (if pyIsAlphaChar c then (if prev then pyCharLower c else pyCharUpper c) else c)
        :: pyTitleAux (pyIsAlphaChar c) cs

/-- Python's `str.title` (ASCII fragment): first letter of each word upper, rest lower. -/
def pyTitle (s : List Char) : List Char := pyTitleAux false s

/-- Decimal rendering of a natural number, for error messages that embed counts. -/
def natToChars (n : Nat) : List Char := Nat.toDigits 10 n

/-! ## Data model (`src/activos/models.py`) -/

/-- The four asset statuses of `Activo.EstadoActivo`:
`AC` Activo, `MA` En Mantenimiento, `DB` Dado de Baja, `RE` En Reparación. -/
inductive Estado
  | AC
  | MA
  | DB
  | RE
deriving DecidableEq, Repr

/-- Display names from `EstadoActivo.choices` (`get_estado_display`). -/
def estadoDisplay : Estado → List Char
  | .AC => "Activo".toList
  | .MA => "En Mantenimiento".toList
  | .DB => "Dado de Baja".toList
  | .RE => "En Reparación".toList

/-- Parsing of a raw status code string against `EstadoActivo.choices`
(the membership test `nuevo_estado in estados_validos` of `cambiar_estado`). -/
def parseEstado (s : List Char) : Option Estado :=
  if s = "AC".toList then some .AC
  else if s = "MA".toList then some .MA
  else if s = "DB".toList then some .DB
  else if s = "RE".toList then some .RE
  else none

/-- The `Categoria` record (store-visible fields). -/
structure Categoria where
  id : Nat
  nombre : List Char
  codigo : List Char
  descripcion : List Char
  activa : Bool
deriving DecidableEq, Repr

/-- The `Activo` record.  The foreign key is embedded as the referenced
`Categoria` object (Django resolves `activo.categoria` to the object).
`fecha_adquisicion` is a day number; optional text fields are `Option`
(`None`/absent) with the empty list standing for a blank string. -/
structure Activo where
  id : Nat
  nombre : List Char
  descripcion : Option (List Char)
  fecha_adquisicion : Int
  valor_inicial : Int
  categoria : Categoria
  estado : Estado
  numero_serie : Option (List Char)
  ubicacion : Option (List Char)
  responsable : Option (List Char)
deriving DecidableEq, Repr

/-- Python truthiness of an optional string (`None` and `""` are falsy). -/
def optTruthy : Option (List Char) → Bool
  | none => false
  | some s => !s.isEmpty

/-- Python truthiness of an optional decimal (`None` and `0` are falsy). -/
def valorTruthy : Option Int → Bool
  | none => false
  | some v => decide (v ≠ 0)

/-! ## Categoria model normalization and save (`models.py`, `Categoria.clean`/`save`) -/

/-- Fields a Categoria validation error can attach to. -/
inductive CatField
  | nombre
  | codigo
  | activa
deriving DecidableEq, Repr

/-- A field-scoped Categoria validation error: offending field plus message. -/
abbrev CatErr : Type := CatField × List Char

/-- The `Categoria.clean` normalization: `codigo = codigo.upper().strip()` and
`nombre = nombre.strip()`, each guarded by truthiness of the current value. -/
def categoriaClean (c : Categoria) : Categoria :=
  { c with
    codigo := if !c.codigo.isEmpty then pyStrip (pyUpper c.codigo) else c.codigo
    nombre := if !c.nombre.isEmpty then pyStrip c.nombre else c.nombre }

/-- The `clean_fields` stage of `full_clean`, which Django runs on the raw
attribute values before `Categoria.clean` normalizes: the declared field
validators — `nombre` blank-check / `MinLengthValidator(3)` / `max_length=100`,
`codigo` blank-check / `max_length=10`. -/
def categoriaFieldChecks (c : Categoria) : Except CatErr Categoria :=
  if c.nombre.length < 3 then
    .error (.nombre, "El nombre debe tener al menos 3 caracteres".toList)
  else if 100 < c.nombre.length then
    .error (.nombre, "Nombre demasiado largo".toList)
  else if c.codigo.isEmpty then
    .error (.codigo, "El código es obligatorio".toList)
  else if 10 < c.codigo.length then
    .error (.codigo, "Código demasiado largo".toList)
  else
    .ok c

/-- The direct-model save path: `Categoria.save` runs `full_clean` — which
first runs the field validators (`clean_fields`) on the raw attribute values
and then the `clean` normalization — and persists the normalized record.
Returns the stored record on success. -/
def categoriaSaveDirect (c : Categoria) : Except CatErr Categoria :=
  match categoriaFieldChecks c with
  | .error e => .error e
  | .ok c0 => .ok (categoriaClean c0)

/-! ## CategoriaSerializer (`serializers.py`) -/

/-- Submitted fields of a Categoria create/update request (absent = `none`). -/
structure CategoriaData where
  nombre : Option (List Char)
  codigo : Option (List Char)
  descripcion : Option (List Char)
  activa : Option Bool
deriving DecidableEq, Repr

/-- `CategoriaSerializer.validate_codigo`: require non-empty, normalize to
upper-case and strip, reject inner spaces and non-alphanumeric characters. -/
def validateCodigo (value : List Char) : Except CatErr (List Char) :=
  if value.isEmpty then
    .error (.codigo, "El código es obligatorio".toList)
  else if (pyStrip (pyUpper value)).contains ' ' then
    .error (.codigo, "El código no puede contener espacios".toList)
  else if !pyIsAlnum (pyStrip (pyUpper value)) then
    .error (.codigo, "El código solo puede contener letras y números".toList)
  else
    .ok (pyStrip (pyUpper value))

/-- `CategoriaSerializer.validate_nombre`: at least 3 characters after trim,
then returned stripped and title-cased. -/
def validateNombreCat (value : List Char) : Except CatErr (List Char) :=
  if value.isEmpty || (pyStrip value).length < 3 then
    .error (.nombre, "El nombre debe tener al menos 3 caracteres".toList)
  else
    .ok (pyTitle (pyStrip value))

/-- Message of the deactivation guard, embedding the exact blocking count
(`CategoriaSerializer.validate`). -/
def mensajeDesactivar (n : Nat) : List Char :=
  "No se puede desactivar la categoría porque tiene ".toList ++ natToChars n ++
    " activo(s) en uso. Da de baja los activos primero.".toList

/-- `CategoriaSerializer.validate` (object level): when updating an existing
instance and the update sets `activa` to false, count the instance's assets
whose status is not `DB`; a positive count rejects with the error attached to
`activa`.  `instActivos` is `none` on create, otherwise the statuses of the
instance's referencing assets. -/
def categoriaValidate (instActivos : Option (List Estado)) (data : CategoriaData) :
    Except CatErr CategoriaData :=
  match instActivos, data.activa with
  | some activos, some false =>
      let activosActivos := (activos.filter (fun e => decide (e ≠ Estado.DB))).length
      if 0 < activosActivos then
        .error (.activa, mensajeDesactivar activosActivos)
      else
        .ok data
  | _, _ => .ok data

/-- The validated-input save path for a Categoria: run the field validators on
the submitted fields, the object-level `validate`, then apply the update to the
base record and save it through the model path (`full_clean` + persist). -/
def optFieldCat (f : List Char → Except CatErr (List Char)) :
    Option (List Char) → Except CatErr (Option (List Char))
  | none => .ok none
  | some v => (f v).map some

def categoriaSaveSerializer (instActivos : Option (List Estado)) (base : Categoria)
    (data : CategoriaData) : Except CatErr Categoria :=
  match optFieldCat validateNombreCat data.nombre with
  | .error e => .error e
  | .ok n =>
    match optFieldCat validateCodigo data.codigo with
    | .error e => .error e
    | .ok k =>
      match categoriaValidate instActivos { data with nombre := n, codigo := k } with
      | .error e => .error e
      | .ok _ =>
          categoriaSaveDirect { base with
            nombre := n.getD base.nombre
            codigo := k.getD base.codigo
            descripcion := ({ data with nombre := n, codigo := k } :
              CategoriaData).descripcion.getD base.descripcion
            activa := ({ data with nombre := n, codigo := k } :
              CategoriaData).activa.getD base.activa }

/-! ## Categoria deletion (`views.py`, `CategoriaViewSet.destroy`) -/

/-- Outcome of the store-level `instance.delete()` call. -/
inductive StoreDelete
  | ok
  | protectedError
  | otherError
deriving DecidableEq, Repr

/-- Response of `CategoriaViewSet.destroy`, mirroring the JSON bodies:
`conActivos` is the `CATEGORIA_CON_ACTIVOS` body (category name and exact
blocking count), `success` the 200 confirmation carrying the deleted name,
`protectedErrorResp` the caught `ProtectedError` body, `internalError` the
generic 500 body. -/
inductive DestroyResult
  | conActivos (categoria : List Char) (cantidadActivos : Nat)
  | success (nombreEliminado : List Char)
  | protectedErrorResp
  | internalError
deriving DecidableEq, Repr

/-- HTTP status of each destroy response. -/
def destroyStatus : DestroyResult → Nat
  | .conActivos _ _ => 400
  | .success _ => 200
  | .protectedErrorResp => 400
  | .internalError => 500

/-- `CategoriaViewSet.destroy`: count the associated assets (any status); a
positive count blocks deletion; otherwise attempt the store delete, mapping
`ProtectedError` to a 400 response and any other exception to a 500.  The
boolean reports whether the record was removed from the store. -/
def categoriaDestroy (c : Categoria) (activos : List Estado) (store : StoreDelete) :
    DestroyResult × Bool :=
  let cantidadActivos := activos.length
  if 0 < cantidadActivos then
    (.conActivos c.nombre cantidadActivos, false)
  else
    match store with
    | .ok => (.success c.nombre, true)
    | .protectedError => (.protectedErrorResp, false)
    | .otherError => (.internalError, false)

/-! ## ActivoSerializer (`serializers.py`) -/

/-- Fields an Activo validation error can attach to. -/
inductive AField
  | nombre
  | descripcion
  | fecha_adquisicion
  | valor_inicial
  | categoria
  | estado
  | numero_serie
deriving DecidableEq, Repr

/-- Submitted fields of an Activo create/update request; `none` means the key
is absent from the request payload. -/
structure ActivoData where
  nombre : Option (List Char)
  descripcion : Option (List Char)
  fecha_adquisicion : Option Int
  valor_inicial : Option Int
  categoria : Option Categoria
  estado : Option Estado
  numero_serie : Option (List Char)
  ubicacion : Option (List Char)
  responsable : Option (List Char)
deriving DecidableEq, Repr

/-- `validate_fecha_adquisicion`: not in the future, not older than 18250 days. -/
def validateFechaAdquisicion (today : Int) (value : Int) : Except AField Int :=
  if today < value then .error .fecha_adquisicion
  else if 18250 < today - value then .error .fecha_adquisicion
  else .ok value

/-- `validate_valor_inicial`: strictly positive and at most 10,000,000. -/
def validateValorInicial (value : Int) : Except AField Int :=
  if value ≤ 0 then .error .valor_inicial
  else if (10000000 : Int) < value then .error .valor_inicial
  else .ok value

/-- `validate_nombre`: at least 3 characters after trim, at most 200, stored
stripped. -/
def validateNombreAct (value : List Char) : Except AField (List Char) :=
  if value.isEmpty || (pyStrip value).length < 3 then .error .nombre
  else if 200 < value.length then .error .nombre
  else .ok (pyStrip value)

/-- `validate_numero_serie`: a truthy value is stripped and upper-cased and must
then have at least 5 characters; `None` and `""` pass through unchanged. -/
def validateNumeroSerie (value : Option (List Char)) : Except AField (Option (List Char)) :=
  match value with
  | some v =>
      if !v.isEmpty then
        let v' := pyUpper (pyStrip v)
        if v'.length < 5 then .error .numero_serie
        else .ok (some v')
      else .ok (some v)
  | none => .ok none

/-- `validate_categoria`: the referenced category must be active. -/
def validateCategoriaRef (value : Categoria) : Except AField Categoria :=
  if !value.activa then .error .categoria
  else .ok value

/-- Lift a single-field validator over an absent-able submitted field. -/
def optField (f : α → Except AField β) : Option α → Except AField (Option β)
  | none => .ok none
  | some v => (f v).map some

/-- The field-level stage of the serializer (`to_internal_value`): when
`requireAll` (create / full update) the four required fields must be present;
each submitted field then runs its `validate_<field>` hook. -/
def activoFieldValidate (today : Int) (requireAll : Bool) (data : ActivoData) :
    Except AField ActivoData :=
  if requireAll && data.nombre.isNone then .error .nombre
  else if requireAll && data.valor_inicial.isNone then .error .valor_inicial
  else if requireAll && data.fecha_adquisicion.isNone then .error .fecha_adquisicion
  else if requireAll && data.categoria.isNone then .error .categoria
  else
    match optField validateNombreAct data.nombre with
    | .error e => .error e
    | .ok nombre =>
      match optField (validateFechaAdquisicion today) data.fecha_adquisicion with
      | .error e => .error e
      | .ok fecha =>
        match optField validateValorInicial data.valor_inicial with
        | .error e => .error e
        | .ok valor =>
          match optField validateCategoriaRef data.categoria with
          | .error e => .error e
          | .ok categoria =>
            match validateNumeroSerie data.numero_serie with
            | .error e => .error e
            | .ok serie =>
                .ok { data with
                  nombre := nombre
                  fecha_adquisicion := fecha
                  valor_inicial := valor
                  categoria := categoria
                  numero_serie := serie }

/-- The acquisition date the 7-day rule reads:
`data.get('fecha_adquisicion', getattr(self.instance, 'fecha_adquisicion', None))`. -/
def resolvedFecha (inst : Option Activo) (data : ActivoData) : Option Int :=
  data.fecha_adquisicion <|> inst.map (·.fecha_adquisicion)

/-- First object-level check of `ActivoSerializer.validate`: a truthy submitted
value above 5000 together with a falsy submitted serial number. -/
def chequeValorSerie (data : ActivoData) : Bool :=
  valorTruthy data.valor_inicial && decide ((5000 : Int) < data.valor_inicial.getD 0) &&
    !optTruthy data.numero_serie

/-- `ActivoSerializer.validate` (object level), exactly in source order:
1. the value/serial check `chequeValorSerie` rejects on `numero_serie`;
2. submitted status `DB` with falsy submitted description rejects on
   `descripcion`;
3. submitted status `DB` with a resolved acquisition date fewer than 7 days
   before today rejects on `estado`. -/
def activoValidate (today : Int) (inst : Option Activo) (data : ActivoData) :
    Except AField ActivoData :=
  if chequeValorSerie data then
    .error .numero_serie
  else if data.estado == some Estado.DB && !optTruthy data.descripcion then
    .error .descripcion
  else
    match resolvedFecha inst data with
    | some fecha =>
        if data.estado == some Estado.DB && today - fecha < 7 then
          .error .estado
        else
          .ok data
    | none => .ok data

/-- The full validation pipeline of the serializer: the field-level stage, then
the object-level `validate`. -/
def activoRunValidation (today : Int) (requireAll : Bool) (inst : Option Activo)
    (data : ActivoData) : Except AField ActivoData :=
  match activoFieldValidate today requireAll data with
  | .error e => .error e
  | .ok d => activoValidate today inst d

/-- The record that would result from applying a partial update `data` to the
stored instance: submitted fields win, stored values fill the rest.  Used to
compare partial-update validation with validation of the full resulting record. -/
def mergeData (inst : Activo) (data : ActivoData) : ActivoData where
  nombre := data.nombre <|> some inst.nombre
  descripcion := data.descripcion <|> inst.descripcion
  fecha_adquisicion := data.fecha_adquisicion <|> some inst.fecha_adquisicion
  valor_inicial := data.valor_inicial <|> some inst.valor_inicial
  categoria := data.categoria <|> some inst.categoria
  estado := data.estado <|> some inst.estado
  numero_serie := data.numero_serie <|> inst.numero_serie
  ubicacion := data.ubicacion <|> inst.ubicacion
  responsable := data.responsable <|> inst.responsable

/-! ## Status change (`views.py`, `ActivoViewSet.cambiar_estado`) -/

/-- Request body of `cambiar_estado` (`estado` and optional `motivo`). -/
structure CambiarReq where
  estado : Option (List Char)
  motivo : Option (List Char)
deriving DecidableEq, Repr

/-- Response of `cambiar_estado`: `missingParameter` is the
`MISSING_PARAMETER` body, `invalidState` the `INVALID_STATE` body carrying the
received code, `success` carries the previous and new display statuses of the
confirmation detail. -/
inductive CambiarResult
  | missingParameter
  | invalidState (recibido : List Char)
  | success (anterior nuevo : List Char)
deriving DecidableEq, Repr

/-- `ActivoViewSet.cambiar_estado`: reject an absent or empty `estado`, reject a
code outside `EstadoActivo.choices`; otherwise set the new status and, when a
truthy `motivo` is given and the new status is `DB` or `MA`, append the
timestamped audit line to the description before saving.  `ts` is the formatted
`timezone.now()` timestamp.  Returns the response and the stored record
(unchanged on the error paths).  `Activo.save` does not run `full_clean`, so no
further validation happens before persisting. -/
def cambiarEstado (ts : List Char) (a : Activo) (req : CambiarReq) :
    CambiarResult × Activo :=
  match req.estado with
  | none => (.missingParameter, a)
  | some s =>
      if s.isEmpty then (.missingParameter, a)
      else
        match parseEstado s with
        | none => (.invalidState s, a)
        | some e =>
            let estadoAnterior := estadoDisplay a.estado
            let a1 := { a with estado := e }
            let a2 :=
              if optTruthy req.motivo && (e == Estado.DB || e == Estado.MA) then
                { a1 with descripcion := some (pyStrip
                    ((a1.descripcion.getD []) ++ "\n\n[".toList ++ ts ++
                      "] Cambio de estado: ".toList ++ estadoAnterior ++
                      " → ".toList ++ estadoDisplay e ++
                      "\nMotivo: ".toList ++ (req.motivo.getD []))) }
              else a1
            (.success estadoAnterior (estadoDisplay e), a2)

/-! ## Bulk decommission (`views.py`, `ActivoViewSet.dar_de_baja_masiva`) -/

/-- The `ids` request parameter: absent (defaults to `[]`), present but not a
JSON list, or a list of identifiers. -/
inductive IdsParam
  | absent
  | notAList
  | lista (l : List Nat)
deriving DecidableEq, Repr

/-- Request body of `dar_de_baja_masiva`. -/
structure BulkReq where
  ids : IdsParam
  motivo : Option (List Char)
deriving DecidableEq, Repr

/-- Response of `dar_de_baja_masiva`: the `INVALID_PARAMETER` body, or the
success body carrying the updated count, the echoed ids and the echoed reason. -/
inductive BulkResult
  | invalidParameter
  | success (cantidadActualizada : Nat) (idsProcesados : List Nat) (motivo : List Char)
deriving DecidableEq, Repr

/-- Default reason when `motivo` is absent. -/
def motivoDefault : List Char := "Sin motivo especificado".toList

/-- `ActivoViewSet.dar_de_baja_masiva`: reject an absent, non-list or empty
`ids`; otherwise `Activo.objects.filter(id__in=ids).update(estado='DB')` — a
direct bulk update that touches only the status column of the matched rows and
returns the number of rows updated.  Returns the response and the new store. -/
def darDeBajaMasiva (store : List Activo) (req : BulkReq) :
    BulkResult × List Activo :=
  let motivo := req.motivo.getD motivoDefault
  match req.ids with
  | .absent => (.invalidParameter, store)
  | .notAList => (.invalidParameter, store)
  | .lista ids =>
      if ids.isEmpty then (.invalidParameter, store)
      else
        let cantidad := (store.filter (fun a => ids.contains a.id)).length
        let nuevo := store.map (fun a =>
          if ids.contains a.id then { a with estado := Estado.DB } else a)
        (.success cantidad ids motivo, nuevo)

/-! ## Global summary (`views.py`, `ActivoViewSet.resumen`) -/

/-- One entry of the per-category breakdown of the summary. -/
structure CategoriaResumen where
  id : Nat
  nombre : List Char
  cantidad : Nat
  valor_total : Int
deriving DecidableEq, Repr

/-- Sum of `valor_inicial` over a list of assets (`Sum('valor_inicial')`,
with `None` coalesced to 0 for the empty set). -/
def sumValores (l : List Activo) : Int := (l.map (·.valor_inicial)).sum

/-- The `resumen` response body. -/
structure Resumen where
  total_activos : Nat
  valor_total : Int
  por_estado_activos : Nat
  por_estado_en_mantenimiento : Nat
  por_estado_dados_de_baja : Nat
  por_estado_en_reparacion : Nat
  menos_1000 : Nat
  entre_1000_y_10000 : Nat
  mas_de_10000 : Nat
  por_categoria : List CategoriaResumen
deriving DecidableEq, Repr

/-- `ActivoViewSet.resumen`: totals, status breakdown and the three value bands
are computed over the filtered working set (`self.get_queryset()` with the
request's filters, modelled by `filt`); the per-category block is computed from
`Categoria.objects.annotate(cantidad=Count('activos'), valor=Sum(...))`
`.filter(cantidad__gt=0)` — i.e. over all stored assets of each category,
keeping categories with at least one asset. -/
def resumen (categorias : List Categoria) (store : List Activo) (filt : Activo → Bool) :
    Resumen :=
  let activos := store.filter filt
  { total_activos := activos.length
    valor_total := sumValores activos
    por_estado_activos := (activos.filter (fun a => a.estado == Estado.AC)).length
    por_estado_en_mantenimiento := (activos.filter (fun a => a.estado == Estado.MA)).length
    por_estado_dados_de_baja := (activos.filter (fun a => a.estado == Estado.DB)).length
    por_estado_en_reparacion := (activos.filter (fun a => a.estado == Estado.RE)).length
    menos_1000 := (activos.filter (fun a => decide (a.valor_inicial < 1000))).length
    entre_1000_y_10000 := (activos.filter (fun a =>
      decide ((1000 : Int) ≤ a.valor_inicial ∧ a.valor_inicial < 10000))).length
    mas_de_10000 := (activos.filter (fun a => decide ((10000 : Int) ≤ a.valor_inicial))).length
    por_categoria := categorias.filterMap (fun c =>
      let cactivos := store.filter (fun a => a.categoria.id == c.id)
      if 0 < cactivos.length then
        some { id := c.id, nombre := c.nombre, cantidad := cactivos.length,
               valor_total := sumValores cactivos }
      else none) }

/-- Modelled from the spec: the per-category breakdown as the spec describes it
— "per-category subtotals (count, value) computed over the same working set and
restricted to categories with at least one matching Asset".  This claim-side
definition takes the filtered working set itself and is compared against the
`por_categoria` field that `resumen` actually computes. -/
def porCategoriaSpec (categorias : List Categoria) (working : List Activo) :
    List CategoriaResumen :=
  categorias.filterMap (fun c =>
    let cactivos := working.filter (fun a => a.categoria.id == c.id)
    if 0 < cactivos.length then
      some { id := c.id, nombre := c.nombre, cantidad := cactivos.length,
             valor_total := sumValores cactivos }
    else none)

/-! ## Concrete fixtures used to evaluate the embedded operations -/

/-- An active example category. -/
def catElectronica : Categoria :=
  { id := 1, nombre := "Electrónica".toList, codigo := "ELEC".toList,
    descripcion := [], activa := true }

/-- A request payload with no field submitted. -/
def dataVacia : ActivoData :=
  { nombre := none, descripcion := none, fecha_adquisicion := none,
    valor_inicial := none, categoria := none, estado := none,
    numero_serie := none, ubicacion := none, responsable := none }

/-- A stored asset acquired on day 100, with no description. -/
def activoRouter : Activo :=
  { id := 7, nombre := "Router".toList, descripcion := none,
    fecha_adquisicion := 100, valor_inicial := 50, categoria := catElectronica,
    estado := .AC, numero_serie := none, ubicacion := none, responsable := none }

/-- A stored asset with a non-empty description, acquired on day 0. -/
def instLaptop : Activo :=
  { id := 1, nombre := "Laptop Dell".toList,
    descripcion := some ("Pantalla dañada en la esquina".toList),
    fecha_adquisicion := 0, valor_inicial := 100, categoria := catElectronica,
    estado := .AC, numero_serie := none, ubicacion := none, responsable := none }

/-- A partial update submitting only `estado = DB`. -/
def dataSoloEstadoDB : ActivoData := { dataVacia with estado := some .DB }

/-- A create payload decommissioning an asset acquired yesterday (day 29,
validated on day 30) with no description submitted. -/
def dataBajaReciente : ActivoData :=
  { dataVacia with
    nombre := some ("Router Cisco".toList), fecha_adquisicion := some 29,
    valor_inicial := some 100, categoria := some catElectronica,
    estado := some .DB }

/-- A create payload decommissioning an old asset with a description. -/
def dataBajaConDescripcion : ActivoData :=
  { dataVacia with
    nombre := some ("Router Cisco".toList), descripcion := some ("obsoleto".toList),
    fecha_adquisicion := some 29, valor_inicial := some 100,
    categoria := some catElectronica, estado := some .DB }

/-- A create payload worth more than 5000 with no serial number. -/
def dataCara : ActivoData :=
  { dataVacia with
    nombre := some ("Servidor Dell".toList), fecha_adquisicion := some 10,
    valor_inicial := some 6000, categoria := some catElectronica }

/-- The same payload with a 7-character serial number. -/
def dataCaraConSerie : ActivoData :=
  { dataCara with numero_serie := some ("SRV1234".toList) }

/-- An example timestamp as formatted by `cambiar_estado`. -/
def tsEjemplo : List Char := "2025-01-01 00:00".toList

/-- A `cambiar_estado` request decommissioning with no reason. -/
def reqBajaSinMotivo : CambiarReq := { estado := some ("DB".toList), motivo := none }

/-- A `cambiar_estado` request to `RE` with a reason. -/
def reqReparacionConMotivo : CambiarReq :=
  { estado := some ("RE".toList), motivo := some ("revisión anual".toList) }

/-- Fixture assets with values 500, 1500 and 12000 (spec §8 summary fixture). -/
def activoV500 : Activo := { activoRouter with id := 11, valor_inicial := 500 }

def activoV1500 : Activo := { activoRouter with id := 12, valor_inicial := 1500 }

def activoV12000 : Activo := { activoRouter with id := 13, valor_inicial := 12000 }

/-- A decommissioned cheap asset in the same category. -/
def activoBaja : Activo :=
  { activoRouter with id := 8, valor_inicial := 100, estado := .DB }

/-- The status filter `?estado=AC` of the working set. -/
def filtroEstadoAC : Activo → Bool := fun a => a.estado == Estado.AC

/-- A bulk-decommission request targeting `activoRouter` with a reason. -/
def reqBajaMasiva : BulkReq :=
  { ids := .lista [7], motivo := some ("obsolescencia".toList) }

/-- A Categoria update submitting only `activa = false`. -/
def dataDesactivar : CategoriaData :=
  { nombre := none, codigo := none, descripcion := none, activa := some false }

/-! ### Facts about the string primitives -/

theorem toNat_ofNat_of_lt {n : Nat} (h : n < 55296) : (Char.ofNat n).toNat = n := by
  rw [Char.ofNat, dif_pos (Or.inl h)]
  rfl

theorem pyCharUpper_idem (c : Char) : pyCharUpper (pyCharUpper c) = pyCharUpper c := by
  by_cases h : 97 ≤ c.toNat ∧ c.toNat ≤ 122
  · have h32 : (Char.ofNat (c.toNat - 32)).toNat = c.toNat - 32 :=
      toNat_ofNat_of_lt (by omega)
    simp only [pyCharUpper, if_pos h]
    rw [if_neg (by rw [h32]; omega)]
  · simp only [pyCharUpper, if_neg h]

theorem pyIsSpace_pyCharUpper (c : Char) : pyIsSpace (pyCharUpper c) = pyIsSpace c := by
  by_cases h : 97 ≤ c.toNat ∧ c.toNat ≤ 122
  · have h32 : (Char.ofNat (c.toNat - 32)).toNat = c.toNat - 32 :=
      toNat_ofNat_of_lt (by omega)
    simp only [pyCharUpper, if_pos h, pyIsSpace, h32, decide_eq_decide]
    omega
  · simp only [pyCharUpper, if_neg h]

theorem dropWhile_map_of_pres {f : Char → Char} {p : Char → Bool}
    (hpf : ∀ c, p (f c) = p c) (l : List Char) :
    (l.map f).dropWhile p = (l.dropWhile p).map f := by
  induction l with
  | nil => rfl
  | cons a l ih =>
      simp only [List.map, List.dropWhile, hpf]
      split <;> simp [ih]

theorem rdropWhile_map_of_pres {f : Char → Char} {p : Char → Bool}
    (hpf : ∀ c, p (f c) = p c) (l : List Char) :
    (l.map f).rdropWhile p = (l.rdropWhile p).map f := by
  simp only [List.rdropWhile, ← List.map_reverse, dropWhile_map_of_pres hpf]

theorem pyStrip_map_of_pres {f : Char → Char}
    (hf : ∀ c, pyIsSpace (f c) = pyIsSpace c) (l : List Char) :
    pyStrip (l.map f) = (pyStrip l).map f := by
  simp only [pyStrip, dropWhile_map_of_pres hf, rdropWhile_map_of_pres hf]

theorem pyStrip_upper_comm (l : List Char) :
    pyStrip (pyUpper l) = pyUpper (pyStrip l) :=
  pyStrip_map_of_pres pyIsSpace_pyCharUpper l

theorem pyUpper_idem (l : List Char) : pyUpper (pyUpper l) = pyUpper l := by
  simp only [pyUpper, List.map_map]
  exact List.map_congr_left (fun c _ => pyCharUpper_idem c)

theorem dropWhile_cons_not {p : Char → Bool} {l t : List Char} {a : Char}
    (h : l.dropWhile p = a :: t) : p a = false := by
  induction l with
  | nil => simp at h
  | cons b l ih =>
      rw [List.dropWhile_cons] at h
      split at h
      · exact ih h
      · next hb =>
          cases h
          simpa using hb

theorem pyStrip_idem (l : List Char) : pyStrip (pyStrip l) = pyStrip l := by
  have hhead : List.dropWhile pyIsSpace (pyStrip l) = pyStrip l := by
    rcases hs : pyStrip l with _ | ⟨a, t⟩
    · rfl
    · have hpre : pyStrip l <+: List.dropWhile pyIsSpace l :=
        List.rdropWhile_prefix _ _
      rw [hs] at hpre
      obtain ⟨u, hu⟩ := hpre
      have hcons : List.dropWhile pyIsSpace l = a :: (t ++ u) := by
        rw [← hu]; rfl
      have hna := dropWhile_cons_not hcons
      simp [List.dropWhile_cons, hna]
  calc pyStrip (pyStrip l)
      = (pyStrip l).rdropWhile pyIsSpace := by rw [pyStrip, hhead]
    _ = ((List.dropWhile pyIsSpace l).rdropWhile pyIsSpace).rdropWhile pyIsSpace := rfl
    _ = pyStrip l := List.rdropWhile_idempotent _ _

theorem pyStrip_upper_collapse (l : List Char) :
    pyStrip (pyUpper (pyStrip (pyUpper l))) = pyStrip (pyUpper l) := by
  rw [pyStrip_upper_comm (pyStrip (pyUpper l)), pyStrip_idem, ← pyStrip_upper_comm,
    pyUpper_idem]

theorem pyUpper_length (l : List Char) : (pyUpper l).length = l.length := by
  simp [pyUpper]

theorem pyStrip_length_le (l : List Char) : (pyStrip l).length ≤ l.length := by
  have h1 : (l.dropWhile pyIsSpace).rdropWhile pyIsSpace <+: l.dropWhile pyIsSpace :=
    List.rdropWhile_prefix _ _
  have h2 : l.dropWhile pyIsSpace <:+ l := List.dropWhile_suffix _
  exact le_trans h1.length_le h2.length_le

/-! ### Helper facts about the Activo field-level validators -/

theorem validateValorInicial_ok_eq {v w : Int} (h : validateValorInicial v = .ok w) :
    w = v := by
  unfold validateValorInicial at h
  split at h
  · cases h
  · split at h
    · cases h
    · cases h; rfl

theorem validateFechaAdquisicion_ok_eq {t v w : Int}
    (h : validateFechaAdquisicion t v = .ok w) : w = v := by
  unfold validateFechaAdquisicion at h
  split at h
  · cases h
  · split at h
    · cases h
    · cases h; rfl

theorem validateNumeroSerie_ok_truthy {o r : Option (List Char)}
    (h : validateNumeroSerie o = .ok r) : optTruthy r = optTruthy o := by
  unfold validateNumeroSerie at h
  match o with
  | none => cases h; rfl
  | some v =>
      simp only at h
      split at h
      · split at h
        · cases h
        · next hemp hlen =>
            cases h
            simp only [optTruthy]
            have hne : ¬ (pyUpper (pyStrip v)).isEmpty := by
              simp only [List.isEmpty_iff]
              intro hnil
              rw [hnil] at hlen
              simp at hlen
            simp only [hne]
            simpa using hemp
      · cases h; rfl

theorem optField_ok_eq {f : α → Except AField α} {o r : Option α}
    (hf : ∀ v w, f v = .ok w → w = v) (h : optField f o = .ok r) : r = o := by
  match o with
  | none => cases h; rfl
  | some v =>
      simp only [optField] at h
      cases hx : f v with
      | error e => rw [hx] at h; cases h
      | ok w => rw [hx] at h; cases h; rw [hf v w hx]

theorem activoFieldValidate_ok_preserves {today : Int} {requireAll : Bool}
    {data d' : ActivoData} (h : activoFieldValidate today requireAll data = .ok d') :
    d'.valor_inicial = data.valor_inicial ∧
    optTruthy d'.numero_serie = optTruthy data.numero_serie ∧
    d'.estado = data.estado ∧
    d'.descripcion = data.descripcion ∧
    d'.fecha_adquisicion = data.fecha_adquisicion := by
  unfold activoFieldValidate at h
  split at h
  · cases h
  · split at h
    · cases h
    · split at h
      · cases h
      · split at h
        · cases h
        · cases hn : optField validateNombreAct data.nombre with
          | error e => rw [hn] at h; cases h
          | ok nombre =>
            rw [hn] at h
            cases hfch : optField (validateFechaAdquisicion today) data.fecha_adquisicion with
            | error e => rw [hfch] at h; cases h
            | ok fecha =>
              rw [hfch] at h
              cases hv : optField validateValorInicial data.valor_inicial with
              | error e => rw [hv] at h; cases h
              | ok valor =>
                rw [hv] at h
                cases hc : optField validateCategoriaRef data.categoria with
                | error e => rw [hc] at h; cases h
                | ok categoria =>
                  rw [hc] at h
                  cases hs : validateNumeroSerie data.numero_serie with
                  | error e => rw [hs] at h; cases h
                  | ok serie =>
                    rw [hs] at h
                    cases h
                    refine ⟨?_, ?_, rfl, rfl, ?_⟩
                    · exact optField_ok_eq (fun v w hw => validateValorInicial_ok_eq hw) hv
                    · exact validateNumeroSerie_ok_truthy hs
                    · exact optField_ok_eq (fun v w hw => validateFechaAdquisicion_ok_eq hw) hfch

/-! ### Partition facts about the summary -/

theorem bandas_particion (l : List Activo) :
    (l.filter (fun a => decide (a.valor_inicial < 1000))).length +
    (l.filter (fun a => decide ((1000 : Int) ≤ a.valor_inicial ∧ a.valor_inicial < 10000))).length +
    (l.filter (fun a => decide ((10000 : Int) ≤ a.valor_inicial))).length = l.length := by
  induction l with
  | nil => rfl
  | cons a l ih =>
      by_cases h1 : a.valor_inicial < 1000
      · have h2 : ¬ ((1000 : Int) ≤ a.valor_inicial ∧ a.valor_inicial < 10000) := by omega
        have h3 : ¬ ((10000 : Int) ≤ a.valor_inicial) := by omega
        simp [List.filter_cons, h1, h2, h3] at ih ⊢
        omega
      · by_cases h3 : (10000 : Int) ≤ a.valor_inicial
        · have h2 : ¬ ((1000 : Int) ≤ a.valor_inicial ∧ a.valor_inicial < 10000) := by omega
          simp [List.filter_cons, h1, h2, h3] at ih ⊢
          omega
        · have h2 : (1000 : Int) ≤ a.valor_inicial ∧ a.valor_inicial < 10000 := by omega
          simp [List.filter_cons, h1, h2.1, h2.2, h3] at ih ⊢
          omega

theorem estados_particion (l : List Activo) :
    (l.filter (fun a => a.estado == Estado.AC)).length +
    (l.filter (fun a => a.estado == Estado.MA)).length +
    (l.filter (fun a => a.estado == Estado.DB)).length +
    (l.filter (fun a => a.estado == Estado.RE)).length = l.length := by
  induction l with
  | nil => rfl
  | cons a l ih =>
      cases he : a.estado <;> simp [List.filter_cons, he] <;> omega

/-! ## Claim theorems -/

/-- C4: for an existing Categoria, an update that sets `activa` to false is
rejected with the error attached to `activa` carrying the exact count of
referencing assets whose status is not `DB` whenever that count is positive,
and is accepted when the count is zero. -/
theorem c4_desactivacion_bloqueada (activos : List Estado) (data : CategoriaData)
    (hact : data.activa = some false) :
    (0 < (activos.filter (fun e => decide (e ≠ Estado.DB))).length →
      categoriaValidate (some activos) data =
        .error (.activa,
          mensajeDesactivar (activos.filter (fun e => decide (e ≠ Estado.DB))).length)) ∧
    ((activos.filter (fun e => decide (e ≠ Estado.DB))).length = 0 →
      categoriaValidate (some activos) data = .ok data) := by
  have hred : categoriaValidate (some activos) data =
      if 0 < (activos.filter (fun e => decide (e ≠ Estado.DB))).length then
        .error (.activa,
          mensajeDesactivar (activos.filter (fun e => decide (e ≠ Estado.DB))).length)
      else .ok data := by
    unfold categoriaValidate
    rw [hact]
  constructor
  · intro hpos
    rw [hred, if_pos hpos]
  · intro hzero
    rw [hred, if_neg (by omega)]

/-- C4 witness: with one active and one decommissioned asset the deactivation is
rejected reporting exactly 1 blocking asset; with only a decommissioned asset it
is accepted. -/
theorem c4_desactivacion_bloqueada_witness :
    categoriaValidate (some [Estado.AC, Estado.DB]) dataDesactivar =
      .error (.activa, mensajeDesactivar 1) ∧
    categoriaValidate (some [Estado.DB]) dataDesactivar = .ok dataDesactivar := by
  constructor
  · exact (c4_desactivacion_bloqueada [Estado.AC, Estado.DB] dataDesactivar rfl).1 (by decide)
  · exact (c4_desactivacion_bloqueada [Estado.DB] dataDesactivar rfl).2 (by decide)

/-- C5: `destroy` fails with the `CATEGORIA_CON_ACTIVOS` body reporting the
exact count whenever the category has at least one associated asset of any
status, leaving the category in place; with zero assets it deletes and returns
the success body with the deleted name; a store-level `ProtectedError` is
reported as a 400 client failure of the same in-use class, not as a 500. -/
theorem c5_destroy_categoria (c : Categoria) (activos : List Estado) (store : StoreDelete) :
    (0 < activos.length →
      categoriaDestroy c activos store = (.conActivos c.nombre activos.length, false)) ∧
    (activos.length = 0 → store = .ok →
      categoriaDestroy c activos store = (.success c.nombre, true)) ∧
    (activos.length = 0 → store = .protectedError →
      categoriaDestroy c activos store = (.protectedErrorResp, false) ∧
      destroyStatus (categoriaDestroy c activos store).1 = 400 ∧
      (categoriaDestroy c activos store).1 ≠ DestroyResult.internalError) := by
  refine ⟨?_, ?_, ?_⟩
  · intro hpos
    simp [categoriaDestroy, hpos]
  · intro hzero hstore
    simp [categoriaDestroy, hzero, hstore]
  · intro hzero hstore
    refine ⟨?_, ?_, ?_⟩ <;> simp [categoriaDestroy, hzero, hstore, destroyStatus]

/-- C5 witness: a single decommissioned asset still blocks deletion with count
1; an empty category deletes successfully; a raced `ProtectedError` yields the
400-class response. -/
theorem c5_destroy_categoria_witness :
    categoriaDestroy catElectronica [Estado.DB] StoreDelete.ok =
      (.conActivos catElectronica.nombre 1, false) ∧
    categoriaDestroy catElectronica [] StoreDelete.ok =
      (.success catElectronica.nombre, true) ∧
    categoriaDestroy catElectronica [] StoreDelete.protectedError =
      (.protectedErrorResp, false) := by
  refine ⟨?_, ?_, ?_⟩
  · exact (c5_destroy_categoria catElectronica [Estado.DB] StoreDelete.ok).1 (by decide)
  · exact (c5_destroy_categoria catElectronica [] StoreDelete.ok).2.1 rfl rfl
  · exact ((c5_destroy_categoria catElectronica [] StoreDelete.protectedError).2.2 rfl rfl).1

/-- C6: `dar_de_baja_masiva` rejects an absent, non-list or empty `ids` with
`INVALID_PARAMETER` and leaves the store unchanged; otherwise it sets `estado`
to `DB` on exactly the stored assets whose id is in `ids` — touching no other
field of any record, in particular not writing the reason into any description
and not checking the 7-day or description invariants — and returns the updated
count with the reason echoed back. -/
theorem c6_baja_masiva (store : List Activo) (req : BulkReq) :
    (req.ids = .absent → darDeBajaMasiva store req = (.invalidParameter, store)) ∧
    (req.ids = .notAList → darDeBajaMasiva store req = (.invalidParameter, store)) ∧
    (req.ids = .lista [] → darDeBajaMasiva store req = (.invalidParameter, store)) ∧
    (∀ ids, req.ids = .lista ids → ids ≠ [] →
      (darDeBajaMasiva store req).1 =
        .success ((store.filter (fun a => ids.contains a.id)).length) ids
          (req.motivo.getD motivoDefault) ∧
      (darDeBajaMasiva store req).2.length = store.length ∧
      (∀ (i : Nat) (a a' : Activo), store[i]? = some a →
        (darDeBajaMasiva store req).2[i]? = some a' →
        a'.id = a.id ∧ a'.nombre = a.nombre ∧ a'.descripcion = a.descripcion ∧
        a'.fecha_adquisicion = a.fecha_adquisicion ∧ a'.valor_inicial = a.valor_inicial ∧
        a'.categoria = a.categoria ∧ a'.numero_serie = a.numero_serie ∧
        a'.ubicacion = a.ubicacion ∧ a'.responsable = a.responsable ∧
        (ids.contains a.id = true → a'.estado = Estado.DB) ∧
        (ids.contains a.id = false → a' = a))) := by
  refine ⟨?_, ?_, ?_, ?_⟩
  · intro h; simp [darDeBajaMasiva, h]
  · intro h; simp [darDeBajaMasiva, h]
  · intro h; simp [darDeBajaMasiva, h]
  · intro ids hids hne
    have hemp : ids.isEmpty = false := by
      cases ids with
      | nil => exact absurd rfl hne
      | cons x xs => rfl
    have hred : darDeBajaMasiva store req =
        (.success ((store.filter (fun a => ids.contains a.id)).length) ids
            (req.motivo.getD motivoDefault),
          store.map (fun a =>
            if ids.contains a.id then { a with estado := Estado.DB } else a)) := by
      simp [darDeBajaMasiva, hids, hemp]
    refine ⟨by rw [hred], by rw [hred]; simp, ?_⟩
    intro i a a' ha ha'
    rw [hred] at ha'
    simp only [List.getElem?_map, ha, Option.map_some] at ha'
    injection ha' with hfa
    subst hfa
    by_cases hc : ids.contains a.id = true
    · have hm : a.id ∈ ids := by simpa using hc
      simp [hm]
    · have hm : a.id ∉ ids := by simpa using hc
      simp [hm]

/-- C6 witness: on a store holding only `activoRouter` (no description, recently
acquired — an asset the single-record path would refuse to decommission), the
bulk path succeeds with count 1 and the echoed reason, leaves the description
unchanged, and an absent `ids` changes nothing. -/
theorem c6_baja_masiva_witness :
    (darDeBajaMasiva [activoRouter] reqBajaMasiva).1 =
      .success 1 [7] ("obsolescencia".toList) ∧
    (darDeBajaMasiva [activoRouter] reqBajaMasiva).2[0]? =
      some { activoRouter with estado := Estado.DB } ∧
    ({ activoRouter with estado := Estado.DB }).descripcion = activoRouter.descripcion ∧
    darDeBajaMasiva [activoRouter] { ids := .absent, motivo := none } =
      (.invalidParameter, [activoRouter]) := by
  obtain ⟨hab, -, -, h4⟩ := c6_baja_masiva [activoRouter]
      { ids := IdsParam.absent, motivo := none }
  obtain ⟨-, -, -, h4b⟩ := c6_baja_masiva [activoRouter] reqBajaMasiva
  obtain ⟨h1, h2, h3⟩ := h4b [7] rfl (by decide)
  refine ⟨?_, ?_, rfl, hab rfl⟩
  · simpa using h1
  · have := h3 0 activoRouter { activoRouter with estado := Estado.DB } rfl (by decide)
    decide

/-- C2 counterexample: the stored record has a non-empty description and a
30-day-old acquisition date; the partial update submitting only `estado = DB`
is rejected (the description check reads only the submitted field), while
creating the full resulting record — the same merge of stored and submitted
fields — is accepted.  The claim that both always produce the same
accept/reject outcome is therefore false. -/
theorem c2_contraejemplo :
    instLaptop.descripcion = some ("Pantalla dañada en la esquina".toList) ∧
    dataSoloEstadoDB.estado = some Estado.DB ∧
    dataSoloEstadoDB.descripcion = none ∧
    (activoRunValidation 30 false (some instLaptop) dataSoloEstadoDB).isOk = false ∧
    (activoRunValidation 30 true none (mergeData instLaptop dataSoloEstadoDB)).isOk = true :=
  ⟨rfl, rfl, rfl, by decide, by decide⟩

/-- C2 (amended): only the 7-day check combines submitted fields with the
stored record — validating a partial update equals create-mode validation of
the submitted fields with just the acquisition date resolved against the
instance; the value/serial and description checks read submitted fields only. -/
theorem c2_validacion_parcial (today : Int) (inst : Activo) (data : ActivoData) :
    (activoValidate today (some inst) data).isOk =
      (activoValidate today none
        { data with
          fecha_adquisicion := data.fecha_adquisicion <|> some inst.fecha_adquisicion }).isOk ∧
    (∀ e : AField, activoValidate today (some inst) data = .error e ↔
      activoValidate today none
        { data with
          fecha_adquisicion := data.fecha_adquisicion <|> some inst.fecha_adquisicion } = .error e) := by
  unfold activoValidate chequeValorSerie resolvedFecha
  cases hfa : data.fecha_adquisicion <;>
    refine ⟨?_, fun e => ?_⟩ <;>
      simp only [hfa] <;> split_ifs <;> simp [Except.isOk, Except.toBool] <;>
        split_ifs <;> simp

/-- C3 counterexample: a candidate decommissioned one day after acquisition but
with no description is rejected with the error attached to `descripcion`, not
to `estado` — the description check precedes the 7-day check. -/
theorem c3_contraejemplo :
    dataBajaReciente.estado = some Estado.DB ∧
    resolvedFecha none dataBajaReciente = some 29 ∧
    ((30 : Int) - 29 < 7) ∧
    activoValidate 30 none dataBajaReciente = .error AField.descripcion ∧
    AField.descripcion ≠ AField.estado :=
  ⟨rfl, rfl, by decide, by decide, by decide⟩

/-- C3 (amended): a candidate submitted with status `DB` whose resolved
acquisition date is fewer than 7 days before today is always rejected, and the
error is attached to `estado` provided the input passes the two preceding
object-level checks (the value/serial rule and the non-empty-description
rule); when it also fails one of those, the rejection carries that earlier
field instead. -/
theorem c3_baja_reciente (today : Int) (inst : Option Activo) (data : ActivoData) (f : Int)
    (hest : data.estado = some Estado.DB)
    (hf : resolvedFecha inst data = some f)
    (hdias : today - f < 7) :
    (activoValidate today inst data).isOk = false ∧
    (chequeValorSerie data = false → optTruthy data.descripcion = true →
      activoValidate today inst data = .error AField.estado) := by
  constructor
  · unfold activoValidate
    by_cases h1 : chequeValorSerie data
    · simp [h1, Except.isOk, Except.toBool]
    · by_cases h2 : optTruthy data.descripcion
      · simp [h1, h2, hest, hf, hdias, Except.isOk, Except.toBool]
      · simp [h1, h2, hest, Except.isOk, Except.toBool]
  · intro h1 h2
    unfold activoValidate
    simp [h1, h2, hest, hf, hdias]

/-- C3 witness: same recent decommission with a description supplied: rejected
with the error on `estado`. -/
theorem c3_baja_reciente_witness :
    (activoValidate 30 none dataBajaConDescripcion).isOk = false ∧
    activoValidate 30 none dataBajaConDescripcion = .error AField.estado := by
  obtain ⟨h1, h2⟩ := c3_baja_reciente 30 none dataBajaConDescripcion 29 rfl rfl (by decide)
  exact ⟨h1, h2 (by decide) (by decide)⟩

/-- C8: under a passing field-level stage, a submitted value above 5000 with an
empty or absent serial number is rejected with the error attached to
`numero_serie`; with a truthy serial number (whose ≥ 5 character minimum the
field stage enforces) the same value is accepted whenever the decommission
checks also pass. -/
theorem c8_valor_alto_numero_serie (today : Int) (requireAll : Bool) (inst : Option Activo)
    (data d' : ActivoData) (v : Int)
    (hok : activoFieldValidate today requireAll data = .ok d')
    (hv : data.valor_inicial = some v) (hgt : (5000 : Int) < v) :
    (optTruthy data.numero_serie = false →
      activoRunValidation today requireAll inst data = .error AField.numero_serie) ∧
    (optTruthy data.numero_serie = true →
      (d'.estado = some Estado.DB → optTruthy d'.descripcion = true) →
      (∀ f, d'.estado = some Estado.DB → resolvedFecha inst d' = some f → 7 ≤ today - f) →
      activoRunValidation today requireAll inst data = .ok d') := by
  obtain ⟨hval, hser, hest, hdesc, hfch⟩ := activoFieldValidate_ok_preserves hok
  have hrun : activoRunValidation today requireAll inst data = activoValidate today inst d' := by
    unfold activoRunValidation
    rw [hok]
  constructor
  · intro hns
    rw [hrun]
    unfold activoValidate
    have hcheck : chequeValorSerie d' = true := by
      simp only [chequeValorSerie, valorTruthy, hval, hv, hser, hns, Option.getD_some]
      simp only [Bool.not_false, Bool.and_true, Bool.and_eq_true, decide_eq_true_eq]
      omega
    simp [hcheck]
  · intro hns hdescOk h7
    rw [hrun]
    unfold activoValidate
    have hcheck : chequeValorSerie d' = false := by
      simp [chequeValorSerie, hser, hns]
    by_cases hDB : d'.estado = some Estado.DB
    · have hdesc' := hdescOk hDB
      cases hfres : resolvedFecha inst d' with
      | none => simp [hcheck, hDB, hdesc', hfres]
      | some f =>
          have h7f := h7 f hDB hfres
          simp [hcheck, hDB, hdesc', hfres]
          omega
    · have hbe : (d'.estado == some Estado.DB) = false := by
        simp [hDB]
      cases hfres : resolvedFecha inst d' with
      | none => simp [hcheck, hbe, hfres]
      | some f => simp [hcheck, hbe, hfres]

/-- C8 witness: value 6000 with no serial is rejected on `numero_serie`; value
6000 with the 7-character serial `SRV1234` is accepted. -/
theorem c8_valor_alto_numero_serie_witness :
    activoRunValidation 30 true none dataCara = .error AField.numero_serie ∧
    activoRunValidation 30 true none dataCaraConSerie = .ok dataCaraConSerie := by
  obtain ⟨hrej, -⟩ := c8_valor_alto_numero_serie 30 true none dataCara dataCara 6000
    (by decide) rfl (by decide)
  obtain ⟨-, hacc⟩ := c8_valor_alto_numero_serie 30 true none dataCaraConSerie dataCaraConSerie
    6000 (by decide) rfl (by decide)
  refine ⟨hrej (by decide), hacc (by decide) (fun h => nomatch h) (fun f h _ => nomatch h)⟩

/-! ### Helper fact about the direct-model Categoria save -/

theorem categoriaFieldChecks_ok {x c' : Categoria} (h : categoriaFieldChecks x = .ok c') :
    c' = x ∧ ¬ x.nombre.length < 3 ∧ ¬ 100 < x.nombre.length ∧
    x.codigo.isEmpty = false ∧ ¬ 10 < x.codigo.length := by
  unfold categoriaFieldChecks at h
  split at h
  next h1 => simp at h
  next h1 =>
    split at h
    next h2 => simp at h
    next h2 =>
      split at h
      next h3 => simp at h
      next h3 =>
        split at h
        next h4 => simp at h
        next h4 =>
          injection h with he
          refine ⟨he.symm, h1, h2, ?_, h4⟩
          cases hx : x.codigo.isEmpty
          · rfl
          · exact absurd hx h3

theorem categoriaClean_fixed {x : Categoria} (hn : 0 < x.nombre.length)
    (hk : x.codigo.isEmpty = false)
    (hfn : pyStrip x.nombre = x.nombre) (hfk : pyStrip (pyUpper x.codigo) = x.codigo) :
    categoriaClean x = x := by
  have hne : x.nombre.isEmpty = false := by
    cases hx : x.nombre.isEmpty
    · rfl
    · rw [List.isEmpty_iff.mp hx] at hn
      simp at hn
  simp [categoriaClean, hne, hk, hfn, hfk]

theorem categoriaSaveDirect_ok {c c' : Categoria} (h : categoriaSaveDirect c = .ok c') :
    c'.nombre = pyStrip c.nombre ∧
    c'.codigo = pyStrip (pyUpper c.codigo) ∧
    pyStrip c'.nombre = c'.nombre ∧
    pyStrip (pyUpper c'.codigo) = c'.codigo ∧
    (∀ c'', categoriaSaveDirect c' = .ok c'' → c'' = c') ∧
    (3 ≤ c'.nombre.length → c'.codigo.isEmpty = false →
      categoriaSaveDirect c' = .ok c') := by
  unfold categoriaSaveDirect at h
  cases hfc : categoriaFieldChecks c with
  | error e =>
      rw [hfc] at h
      cases h
  | ok c0 =>
      rw [hfc] at h
      obtain ⟨hc0, h1, h2, h3, h4⟩ := categoriaFieldChecks_ok hfc
      subst c0
      injection h with he
      subst he
      have hcnomne : c.nombre.isEmpty = false := by
        cases hx : c.nombre.isEmpty
        · rfl
        · exfalso
          apply h1
          rw [List.isEmpty_iff.mp hx]
          simp
      have hRnom : (categoriaClean c).nombre = pyStrip c.nombre := by
        simp [categoriaClean, hcnomne]
      have hRkod : (categoriaClean c).codigo = pyStrip (pyUpper c.codigo) := by
        simp [categoriaClean, h3]
      have hfixn : pyStrip (categoriaClean c).nombre = (categoriaClean c).nombre := by
        rw [hRnom]
        exact pyStrip_idem _
      have hfixk : pyStrip (pyUpper (categoriaClean c).codigo) = (categoriaClean c).codigo := by
        rw [hRkod]
        exact pyStrip_upper_collapse _
      refine ⟨hRnom, hRkod, hfixn, hfixk, ?_, ?_⟩
      · intro c'' h''
        unfold categoriaSaveDirect at h''
        cases hfc' : categoriaFieldChecks (categoriaClean c) with
        | error e =>
            rw [hfc'] at h''
            cases h''
        | ok d0 =>
            rw [hfc'] at h''
            obtain ⟨hd0, g1, g2, g3, g4⟩ := categoriaFieldChecks_ok hfc'
            subst hd0
            injection h'' with he''
            rw [← he'']
            exact categoriaClean_fixed (by omega) g3 hfixn hfixk
      · intro hn3 hkne
        have hfix : categoriaClean (categoriaClean c) = categoriaClean c :=
          categoriaClean_fixed (by omega) hkne hfixn hfixk
        have hlen1 : (categoriaClean c).nombre.length ≤ 100 := by
          rw [hRnom]
          calc (pyStrip c.nombre).length ≤ c.nombre.length := pyStrip_length_le _
            _ ≤ 100 := by omega
        have hlen2 : (categoriaClean c).codigo.length ≤ 10 := by
          rw [hRkod]
          calc (pyStrip (pyUpper c.codigo)).length ≤ (pyUpper c.codigo).length :=
                pyStrip_length_le _
            _ = c.codigo.length := pyUpper_length _
            _ ≤ 10 := by omega
        have hfc' : categoriaFieldChecks (categoriaClean c) = .ok (categoriaClean c) := by
          unfold categoriaFieldChecks
          rw [if_neg (by omega), if_neg (by omega),
            if_neg (by rw [hkne]; exact Bool.false_ne_true), if_neg (by omega)]
        unfold categoriaSaveDirect
        rw [hfc']
        show Except.ok (categoriaClean (categoriaClean c)) = Except.ok (categoriaClean c)
        rw [hfix]

/-- C9: on every successful save the stored `codigo` is the upper-cased trim of
the submitted one and the stored `nombre` is trimmed; the stored `codigo` is a
fixed point of upper-trim, so normalization is idempotent: a re-save of the
stored record changes nothing when it succeeds, and it succeeds exactly when
the stored name still meets the 3-character minimum and the stored code is
non-blank (the field validators run on the raw values before `clean`, so a
name whose trim dropped below 3 characters makes the re-save fail) — e.g.
"elec" then "ELEC" both store "ELEC"; the validated-input path additionally
title-cases the name while the direct-model path only trims it. -/
theorem c9_normalizacion_codigo :
    (∀ c c', categoriaSaveDirect c = .ok c' →
      c'.nombre = pyStrip c.nombre ∧
      c'.codigo = pyStrip (pyUpper c.codigo) ∧
      pyStrip c'.nombre = c'.nombre ∧
      pyStrip (pyUpper c'.codigo) = c'.codigo ∧
      (∀ c'', categoriaSaveDirect c' = .ok c'' → c'' = c') ∧
      (3 ≤ c'.nombre.length → c'.codigo.isEmpty = false →
        categoriaSaveDirect c' = .ok c')) ∧
    (∀ instA base data nom kod c',
      data.nombre = some nom → data.codigo = some kod →
      categoriaSaveSerializer instA base data = .ok c' →
      c'.nombre = pyStrip (pyTitle (pyStrip nom)) ∧
      c'.codigo = pyStrip (pyUpper kod) ∧
      pyStrip (pyUpper c'.codigo) = c'.codigo) ∧
    (categoriaSaveSerializer none catElectronica
        { nombre := some ("  mesa grande  ".toList), codigo := some (" elec ".toList),
          descripcion := none, activa := none } =
      .ok { catElectronica with nombre := "Mesa Grande".toList, codigo := "ELEC".toList } ∧
     categoriaSaveDirect
        { catElectronica with nombre := "  mesa grande  ".toList, codigo := " elec ".toList } =
      .ok { catElectronica with nombre := "mesa grande".toList, codigo := "ELEC".toList }) ∧
    (categoriaSaveDirect { catElectronica with codigo := "elec".toList } =
      .ok { catElectronica with codigo := "ELEC".toList } ∧
     categoriaSaveDirect { catElectronica with codigo := "ELEC".toList } =
      .ok { catElectronica with codigo := "ELEC".toList }) := by
  refine ⟨fun c c' h => categoriaSaveDirect_ok h, ?_, by decide, by decide⟩
  intro instA base data nom kod c' hnom hkod h
  unfold categoriaSaveSerializer at h
  rw [hnom, hkod] at h
  simp only [optFieldCat] at h
  cases hvn : validateNombreCat nom with
  | error e =>
      rw [hvn] at h
      simp [Except.map] at h
  | ok n0 =>
      rw [hvn] at h
      simp only [Except.map] at h
      cases hvk : validateCodigo kod with
      | error e =>
          rw [hvk] at h
          simp [Except.map] at h
      | ok k0 =>
          rw [hvk] at h
          simp only [Except.map] at h
          split at h
          next heq => simp at h
          next u heq =>
            obtain ⟨ha, hb, hc, hd, he, hf⟩ := categoriaSaveDirect_ok h
            have hn0 : n0 = pyTitle (pyStrip nom) := by
              unfold validateNombreCat at hvn
              split at hvn
              · simp at hvn
              · injection hvn with hx
                exact hx.symm
            have hk0 : k0 = pyStrip (pyUpper kod) := by
              unfold validateCodigo at hvk
              split at hvk
              · simp at hvk
              · split at hvk
                · simp at hvk
                · split at hvk
                  · simp at hvk
                  · injection hvk with hx
                    exact hx.symm
            refine ⟨?_, ?_, hd⟩
            · rw [ha]
              simp only [Option.getD_some]
              rw [hn0]
            · rw [hb]
              simp only [Option.getD_some]
              rw [hk0]
              exact pyStrip_upper_collapse _

/-- C9 witness: the stored code "ELEC" is a fixed point of upper-trim, the
re-save of that stored record succeeds unchanged (its name keeps 3 characters
and its code is non-blank), and the serializer path stored the title-cased
trimmed name for the submitted "  mesa grande  ". -/
theorem c9_normalizacion_codigo_witness :
    pyStrip (pyUpper ("ELEC".toList)) = "ELEC".toList ∧
    categoriaSaveDirect { catElectronica with codigo := "ELEC".toList } =
      .ok { catElectronica with codigo := "ELEC".toList } ∧
    ({ catElectronica with nombre := "Mesa Grande".toList, codigo := "ELEC".toList }
        : Categoria).nombre =
      pyStrip (pyTitle (pyStrip ("  mesa grande  ".toList))) := by
  obtain ⟨pa, pb, -, -⟩ := c9_normalizacion_codigo
  obtain ⟨-, -, -, h4, -, h6⟩ := pa { catElectronica with codigo := "elec".toList }
      { catElectronica with codigo := "ELEC".toList } (by decide)
  obtain ⟨hb1, -, -⟩ := pb none catElectronica
      { nombre := some ("  mesa grande  ".toList), codigo := some (" elec ".toList),
        descripcion := none, activa := none }
      ("  mesa grande  ".toList) (" elec ".toList)
      { catElectronica with nombre := "Mesa Grande".toList, codigo := "ELEC".toList }
      rfl rfl (by decide)
  exact ⟨h4, h6 (by decide) (by decide), hb1⟩

/-- C7 counterexample: with the working set filtered to status `AC`, the
per-category block still aggregates the category's decommissioned asset — the
code reports count 2 / value 600 over all stored assets of the category while
the claimed working-set computation gives count 1 / value 500. -/
theorem c7_contraejemplo :
    (resumen [catElectronica] [activoV500, activoBaja] filtroEstadoAC).por_categoria =
      [{ id := 1, nombre := catElectronica.nombre, cantidad := 2, valor_total := 600 }] ∧
    porCategoriaSpec [catElectronica]
        (List.filter filtroEstadoAC [activoV500, activoBaja]) =
      [{ id := 1, nombre := catElectronica.nombre, cantidad := 1, valor_total := 500 }] ∧
    (resumen [catElectronica] [activoV500, activoBaja] filtroEstadoAC).por_categoria ≠
      porCategoriaSpec [catElectronica]
        (List.filter filtroEstadoAC [activoV500, activoBaja]) :=
  ⟨by decide, by decide, by decide⟩

/-- C7 (amended): the totals, the status breakdown and the three value bands of
the summary are computed over the filtered working set — the bands and the four
statuses partition it — and every reported category row has a positive count;
the per-category subtotals, however, are computed over all stored assets,
ignoring the request filter.  On the fixture with values [500, 1500, 12000] the
bands are 1/1/1 and the total value 14000. -/
theorem c7_resumen_global (categorias : List Categoria) (store : List Activo)
    (filt : Activo → Bool) :
    ((resumen categorias store filt).total_activos = (store.filter filt).length ∧
     (resumen categorias store filt).valor_total = sumValores (store.filter filt) ∧
     (resumen categorias store filt).menos_1000 +
       (resumen categorias store filt).entre_1000_y_10000 +
       (resumen categorias store filt).mas_de_10000 =
         (resumen categorias store filt).total_activos ∧
     (resumen categorias store filt).por_estado_activos +
       (resumen categorias store filt).por_estado_en_mantenimiento +
       (resumen categorias store filt).por_estado_dados_de_baja +
       (resumen categorias store filt).por_estado_en_reparacion =
         (resumen categorias store filt).total_activos ∧
     (resumen categorias store filt).por_categoria = porCategoriaSpec categorias store ∧
     (∀ e ∈ (resumen categorias store filt).por_categoria, 0 < e.cantidad)) ∧
    ((resumen [catElectronica] [activoV500, activoV1500, activoV12000]
        (fun _ => true)).menos_1000 = 1 ∧
     (resumen [catElectronica] [activoV500, activoV1500, activoV12000]
        (fun _ => true)).entre_1000_y_10000 = 1 ∧
     (resumen [catElectronica] [activoV500, activoV1500, activoV12000]
        (fun _ => true)).mas_de_10000 = 1 ∧
     (resumen [catElectronica] [activoV500, activoV1500, activoV12000]
        (fun _ => true)).valor_total = 14000) := by
  refine ⟨⟨rfl, rfl, bandas_particion _, estados_particion _, rfl, ?_⟩, by decide⟩
  intro e he
  simp only [resumen, porCategoriaSpec, List.mem_filterMap] at he
  obtain ⟨cat, hmem, hg⟩ := he
  split at hg
  next hpos =>
    injection hg with hge
    rw [← hge]
    exact hpos
  next hpos => cases hg

/-- C7 witness: on a one-asset store the summary reports 1 asset and its single
category row has a positive count. -/
theorem c7_resumen_global_witness :
    (resumen [catElectronica] [activoV500] (fun _ => true)).total_activos = 1 ∧
    (0 : Nat) <
      ({ id := 1, nombre := catElectronica.nombre, cantidad := 1,
         valor_total := 500 } : CategoriaResumen).cantidad := by
  obtain ⟨⟨h1, -, -, -, -, hpos⟩, -⟩ :=
    c7_resumen_global [catElectronica] [activoV500] (fun _ => true)
  refine ⟨by rw [h1]; decide, ?_⟩
  exact hpos _ (by decide)

/-- C1 counterexample: `cambiar_estado` to `DB` succeeds on an asset that has no
description and was acquired the same day (today = day 100 = its acquisition
day): the persisted record has status `DB`, a still-falsy description and an
acquisition age below 7 days, while the serializer validation contract rejects
that very transition — the operation ran no such validation and did not fail. -/
theorem c1_contraejemplo :
    (cambiarEstado tsEjemplo activoRouter reqBajaSinMotivo).1 =
      .success (estadoDisplay .AC) (estadoDisplay .DB) ∧
    (cambiarEstado tsEjemplo activoRouter reqBajaSinMotivo).2.estado = .DB ∧
    optTruthy (cambiarEstado tsEjemplo activoRouter reqBajaSinMotivo).2.descripcion = false ∧
    ((100 : Int) - (cambiarEstado tsEjemplo activoRouter reqBajaSinMotivo).2.fecha_adquisicion
      < 7) ∧
    (activoValidate 100 (some activoRouter)
      { dataVacia with estado := some .DB }).isOk = false :=
  ⟨by decide, by decide, by decide, by decide, by decide⟩

/-- C1 (amended): `cambiar_estado` validates only that a status code is present
and among the four defined codes — an absent or empty `estado` yields
`MISSING_PARAMETER` and an unknown code `INVALID_STATE`, both leaving the
record unchanged — and with any of the four valid codes it always succeeds and
persists the new status without invoking the create/update validation contract
(no description or 7-day-age check), for every asset. -/
theorem c1_cambiar_estado_sin_validacion (ts : List Char) (a : Activo) (req : CambiarReq) :
    (req.estado = none → cambiarEstado ts a req = (.missingParameter, a)) ∧
    (req.estado = some [] → cambiarEstado ts a req = (.missingParameter, a)) ∧
    (∀ s, req.estado = some s → s ≠ [] → parseEstado s = none →
      cambiarEstado ts a req = (.invalidState s, a)) ∧
    (∀ s e, req.estado = some s → parseEstado s = some e →
      (cambiarEstado ts a req).1 = .success (estadoDisplay a.estado) (estadoDisplay e) ∧
      (cambiarEstado ts a req).2.estado = e) := by
  refine ⟨?_, ?_, ?_, ?_⟩
  · intro h
    simp [cambiarEstado, h]
  · intro h
    simp [cambiarEstado, h]
  · intro s hs hne hp
    have hemp : s.isEmpty = false := by
      cases s with
      | nil => exact absurd rfl hne
      | cons x xs => rfl
    simp [cambiarEstado, hs, hemp, hp]
  · intro s e hs hp
    have hne : s ≠ [] := by
      intro hx
      rw [hx] at hp
      simp [parseEstado] at hp
    have hemp : s.isEmpty = false := by
      cases s with
      | nil => exact absurd rfl hne
      | cons x xs => rfl
    by_cases hm : (optTruthy req.motivo && (e == Estado.DB || e == Estado.MA)) = true
    · constructor <;> simp [cambiarEstado, hs, hemp, hp, hm]
    · constructor <;> simp [cambiarEstado, hs, hemp, hp, hm]

/-- C1 witness: the decommission of `activoRouter` with no reason succeeds as
the amended claim states, and an absent `estado` is reported missing with the
record untouched. -/
theorem c1_cambiar_estado_sin_validacion_witness :
    (cambiarEstado tsEjemplo activoRouter reqBajaSinMotivo).1 =
      .success (estadoDisplay .AC) (estadoDisplay .DB) ∧
    cambiarEstado tsEjemplo activoRouter { estado := none, motivo := none } =
      (.missingParameter, activoRouter) := by
  obtain ⟨-, -, -, hsucc⟩ :=
    c1_cambiar_estado_sin_validacion tsEjemplo activoRouter reqBajaSinMotivo
  refine ⟨(hsucc ("DB".toList) Estado.DB rfl (by decide)).1, ?_⟩
  exact (c1_cambiar_estado_sin_validacion tsEjemplo activoRouter
    { estado := none, motivo := none }).1 rfl

/-- C10: `cambiar_estado` never modifies the id, name, acquisition date, value,
category, serial number, location or responsible party; it leaves the
description unchanged whenever no truthy reason is supplied, and also — even
with a reason — whenever the requested status parses to `AC` or `RE`. -/
theorem c10_cambiar_estado_frame (ts : List Char) (a : Activo) (req : CambiarReq) :
    ((cambiarEstado ts a req).2.id = a.id ∧
     (cambiarEstado ts a req).2.nombre = a.nombre ∧
     (cambiarEstado ts a req).2.fecha_adquisicion = a.fecha_adquisicion ∧
     (cambiarEstado ts a req).2.valor_inicial = a.valor_inicial ∧
     (cambiarEstado ts a req).2.categoria = a.categoria ∧
     (cambiarEstado ts a req).2.numero_serie = a.numero_serie ∧
     (cambiarEstado ts a req).2.ubicacion = a.ubicacion ∧
     (cambiarEstado ts a req).2.responsable = a.responsable) ∧
    (optTruthy req.motivo = false →
      (cambiarEstado ts a req).2.descripcion = a.descripcion) ∧
    (∀ s, req.estado = some s →
      (parseEstado s = some Estado.AC ∨ parseEstado s = some Estado.RE) →
      (cambiarEstado ts a req).2.descripcion = a.descripcion) := by
  cases hre : req.estado with
  | none => simp [cambiarEstado, hre]
  | some s =>
      cases hsem : s.isEmpty with
      | true => simp [cambiarEstado, hre, hsem]
      | false =>
          cases hp : parseEstado s with
          | none => simp [cambiarEstado, hre, hsem, hp]
          | some e =>
              by_cases hm : (optTruthy req.motivo && (e == Estado.DB || e == Estado.MA)) = true
              · refine ⟨by simp [cambiarEstado, hre, hsem, hp, hm], ?_, ?_⟩
                · intro hmf
                  rw [Bool.and_eq_true] at hm
                  rw [hmf] at hm
                  cases hm.1
                · intro s' hs' hae
                  injection hs' with hss
                  subst hss
                  exfalso
                  rcases hae with hx | hx <;>
                    · rw [hp] at hx
                      injection hx with hxe
                      subst hxe
                      rw [Bool.and_eq_true] at hm
                      simp at hm
              · refine ⟨by simp [cambiarEstado, hre, hsem, hp, hm], ?_, ?_⟩
                · intro hmf
                  simp [cambiarEstado, hre, hsem, hp, hm]
                · intro s' hs' hae
                  simp [cambiarEstado, hre, hsem, hp, hm]

/-- C10 witness: a transition to `RE` with a reason and a transition to `DB`
without one both leave the description (and the other fields) unchanged. -/
theorem c10_cambiar_estado_frame_witness :
    (cambiarEstado tsEjemplo activoRouter reqReparacionConMotivo).2.descripcion =
      activoRouter.descripcion ∧
    (cambiarEstado tsEjemplo activoRouter reqBajaSinMotivo).2.descripcion =
      activoRouter.descripcion ∧
    (cambiarEstado tsEjemplo activoRouter reqReparacionConMotivo).2.nombre =
      activoRouter.nombre := by
  obtain ⟨hframe, -, h3⟩ :=
    c10_cambiar_estado_frame tsEjemplo activoRouter reqReparacionConMotivo
  obtain ⟨-, h2, -⟩ :=
    c10_cambiar_estado_frame tsEjemplo activoRouter reqBajaSinMotivo
  exact ⟨h3 ("RE".toList) rfl (Or.inr (by decide)), h2 (by decide), hframe.2.1⟩

end AssetFlow
